import Mathlib

/-!
Shallow embedding of `eodal`'s STAC metadata client
(`eodal/metadata/stac/client.py`) together with the mapper-configuration
round trip and the mapper loading invariant exercised by the test suite.

External collaborators (the `pystac_client` catalog, the settings object
from `eodal.config`) are modelled as explicit parameters: the behaviour of
the remote catalog is a record of result-returning functions, and the
settings object is a plain structure.  Machine floats that only ever get
compared (cloud-cover percentages, sun angles) are modelled as rationals,
since the code performs no float arithmetic on them.
-/

namespace Eodal

/-- A JSON-like scalar as it appears in a STAC item's `properties`
dictionary.  Numbers are split into integers and non-integral numbers to
mirror Python's `int` / `float` distinction (`str()` of an `int` renders
without a decimal point). -/
inductive JVal where
  | str (s : String)
  | int (n : Int)
  | num (q : Rat)
deriving DecidableEq, Repr

/-- Python `str()` applied to a property value.  For `float`s the exact
rendering of CPython is irrelevant to every claim (only string and integer
properties are ever joined); any injective rendering serves. -/
def JVal.pyStr : JVal → String
  | .str s => s
  | .int n => toString n
  | .num q => toString q

/-- Reading a property value as a number, as Python's `<=` against a float
threshold requires: strings raise `TypeError`, numbers compare. -/
def JVal.asRat : JVal → Option Rat
  | .str _ => none
  | .int n => some (n : Rat)
  | .num q => some q

/-- A Python dictionary with string keys, as an association list. -/
abbrev Props := List (String × JVal)

/-- One STAC item (a GeoJSON feature) as returned inside the item
collection's dictionary form: its `properties` dictionary, its `assets`
dictionary (asset name to href, treated as opaque payload), and the other
top-level keys of the feature dictionary. -/
structure Scene where
  properties : Props
  assets : List (String × String)
  top : Props
deriving DecidableEq, Repr

/-- A calendar date as produced by `datetime.date`. -/
structure PDate where
  year : Nat
  month : Nat
  day : Nat
deriving DecidableEq, Repr

/-- Left-pad a string with zeros to the given width. -/
def padZero (w : Nat) (s : String) : String :=
  if s.length ≥ w then s else String.mk (List.replicate (w - s.length) '0') ++ s

/-- `date.strftime("%Y-%m-%d")`: four-digit year, two-digit month and day,
joined by hyphens. -/
def strftimeYmd (d : PDate) : String :=
  padZero 4 (toString d.year) ++ "-" ++ padZero 2 (toString d.month) ++ "-" ++
    padZero 2 (toString d.day)

/-- Day count of a month, with Gregorian leap years, as validated by
`datetime.date`. -/
def daysInMonth (y m : Nat) : Nat :=
  if m = 2 then (if (y % 4 = 0 ∧ y % 100 ≠ 0) ∨ y % 400 = 0 then 29 else 28)
  else if m = 4 ∨ m = 6 ∨ m = 9 ∨ m = 11 then 30 else 31

/-- Python `int()` of a non-empty run of decimal digits; anything else is
no number. -/
def parseNatChars : List Char → Option Nat
  | [] => none
  | cs =>
    if cs.all Char.isDigit then
      some (cs.foldl (fun acc c => 10 * acc + (c.toNat - 48)) 0)
    else none

/-- Splitting a character list at every `-`, as Python `s.split("-")`. -/
def splitOnDashAux : List Char → List Char → List (List Char)
  | [], acc => [acc.reverse]
  | c :: cs, acc =>
    if c = '-' then acc.reverse :: splitOnDashAux cs []
    else splitOnDashAux cs (c :: acc)

/-- `datetime.strptime(s, "%Y-%m-%d").date()`: three dash-separated decimal
fields forming a valid calendar date; anything else raises. -/
def strptimeYmd (s : String) : Option PDate :=
  match splitOnDashAux s.data [] with
  | [ys, ms, ds] => do
    let y ← parseNatChars ys
    let m ← parseNatChars ms
    let d ← parseNatChars ds
    if 1 ≤ y ∧ y ≤ 9999 ∧ 1 ≤ m ∧ m ≤ 12 ∧ 1 ≤ d ∧ d ≤ daysInMonth y m then
      some ⟨y, m, d⟩
    else none
  | _ => none

/-- Python `s.split("T")[0]`: everything before the first `T` (the whole
string when no `T` occurs). -/
def takeBeforeT (s : String) : String :=
  String.mk (s.data.takeWhile (fun c => c ≠ 'T'))

/-- Modelled from the spec: the per-sensor property-name mapping the
settings object provides for Sentinel-2.  `eodal/config.py` is not part of
the sources; the spec only says the settings object carries
"per-sensor property-name mappings".  `tile_id` is a single property name
or a list of names (the code branches on `isinstance(s2.tile_id, list)`). -/
structure S2Mapping where
  product_uri : String
  scene_id : String
  platform : String
  tile_id : String ⊕ List String
  sensing_time : String
  sensing_time_fmt : String
  cloud_cover : String
  epsg : String
  sun_azimuth_angle : String
  sun_zenith_angle : String
deriving DecidableEq, Repr

/-- Identity of a STAC provider, used for the comparison
`Settings.STAC_BACKEND != STAC_Providers.MSPC`. -/
inductive ProviderId where
  | MSPC
  | AWS
deriving DecidableEq, Repr

/-- Modelled from the spec: a STAC backend entry of the settings object:
its URL, the collection names for the two Sentinel-2 processing levels, and
the Sentinel-2 property-name mapping. -/
structure Provider where
  id : ProviderId
  URL : String
  S2L1C : String
  S2L2A : String
  Sentinel2 : S2Mapping
deriving DecidableEq, Repr

/-- Modelled from the spec: the settings object providing the STAC backend,
feature flags (use-STAC vs. database), API credentials, and item limits. -/
structure Settings where
  USE_STAC : Bool
  STAC_BACKEND : Provider
  PC_SDK_SUBSCRIPTION_KEY : String
  MAX_ITEMS : Nat
  LIMIT_ITEMS : Nat
deriving DecidableEq, Repr

/-- A bounding polygon in geographic coordinates (vertex list). -/
abbrev Polygon := List (Rat × Rat)

/-- The parameters of one `cat.search(...)` call. -/
structure SearchParams where
  collections : String
  intersects : Polygon
  datetime : String
  max_items : Nat
  limit : Nat
deriving DecidableEq, Repr

/-- The dictionary form of a fetched item collection: its `features` list. -/
structure ItemCollection where
  features : List Scene
deriving DecidableEq, Repr

/-- A Python exception as it reaches the caller: either a `ValueError`
raised by this code, or an error raised inside the external STAC client
library. -/
inductive PyError where
  | valueError (msg : String)
  | clientError (msg : String)
deriving DecidableEq, Repr

/-- Observable interactions with the external STAC client library. -/
inductive Event where
  | openCatalog (url : String)
  | search (p : SearchParams)
  | getItems
deriving DecidableEq, Repr

/-- Whether an event is a `search` call. -/
def Event.isSearch : Event → Bool
  | .search _ => true
  | _ => false

/-- Behaviour of the external STAC client library for one call: the outcome
of `Client.open`, of building the search, and of fetching all items.
Failures of the library are arbitrary strings; they surface as
`PyError.clientError`. -/
structure StacClient where
  openRes : String → Except String Unit
  searchRes : SearchParams → Except String Unit
  itemsRes : SearchParams → Except String ItemCollection

/-- `query_stac` from `eodal/metadata/stac/client.py`: open the catalog at
`Settings.STAC_BACKEND.URL`, build the `%Y-%m-%d/%Y-%m-%d` date-range
string, issue one search with the collection, polygon, date range and the
settings' item limits, fetch all items, and return the `features` list of
their dictionary form.  The second component records the interactions with
the external library in order. -/
def query_stac (env : StacClient) (S : Settings) (date_start date_end : PDate)
    (collection : String) (bounding_box : Polygon) :
    Except PyError (List Scene) × List Event :=
  let url := S.STAC_BACKEND.URL
  match env.openRes url with
  | .error e => (.error (.clientError e), [.openCatalog url])
  | .ok _ =>
    let datestr := strftimeYmd date_start ++ "/" ++ strftimeYmd date_end
    let params : SearchParams :=
      ⟨collection, bounding_box, datestr, S.MAX_ITEMS, S.LIMIT_ITEMS⟩
    match env.searchRes params with
    | .error e => (.error (.clientError e), [.openCatalog url, .search params])
    | .ok _ =>
      match env.itemsRes params with
      | .error e =>
          (.error (.clientError e), [.openCatalog url, .search params, .getItems])
      | .ok items =>
          (.ok items.features, [.openCatalog url, .search params, .getItems])

/-- Sentinel-2 processing levels (`eodal.utils.sentinel2.ProcessingLevels`). -/
inductive ProcessingLevels where
  | L1C
  | L2A
deriving DecidableEq, Repr

/-- The collection chosen by
`eval(f"Settings.STAC_BACKEND.S2{processing_level.name}")`. -/
def s2Collection (p : Provider) : ProcessingLevels → String
  | .L1C => p.S2L1C
  | .L2A => p.S2L2A

/-- A value stored in the per-scene metadata record built by `sentinel2`:
a raw property value, a parsed date, a parsed datetime (kept as the raw
string together with the provider's format, since no claim inspects the
parsed fields), a joined tile-id string, or the assets dictionary. -/
inductive MetaVal where
  | jv (v : JVal)
  | date (d : PDate)
  | dtime (raw fmt : String)
  | tile (s : String)
  | assets (a : List (String × String))
deriving DecidableEq, Repr

/-- A metadata record (one row of the returned DataFrame), as the Python
dictionary it is built from: keys in insertion order. -/
abbrev MetaDict := List (String × MetaVal)

/-- The tile id of a scene: `props[s2.tile_id]` when the mapping is a
single property name, the joined `str()` values of the listed properties
when it is a list (the AWS case). -/
def lookupTileId (s2 : S2Mapping) (props : Props) : Option MetaVal :=
  match s2.tile_id with
  | .inr keys =>
      (keys.mapM (fun x => (props.lookup x).map JVal.pyStr)).map
        (fun parts => .tile (String.join parts))
  | .inl k => (props.lookup k).map .jv

/-- The product URI: the scene's top-level key, falling back to its
`properties` on `KeyError`. -/
def lookupProductUri (s2 : S2Mapping) (scene : Scene) : Option JVal :=
  match scene.top.lookup s2.product_uri with
  | some v => some v
  | none => scene.properties.lookup s2.product_uri

/-- The scene id: the scene's `properties`, falling back to its top-level
keys on `KeyError`. -/
def lookupSceneId (s2 : S2Mapping) (scene : Scene) : Option JVal :=
  match scene.properties.lookup s2.scene_id with
  | some v => some v
  | none => scene.top.lookup s2.scene_id

/-- A property value usable as a Python string (`.split` / `strptime`
raise on anything else). -/
def JVal.asStr : JVal → Option String
  | .str s => some s
  | _ => none

/-- The body of `sentinel2`'s per-scene extraction: map the STAC keys of
one scene to eodal's naming convention.  Each dictionary access that can
raise a `KeyError` (or a `TypeError`/`AttributeError` from using a value of
the wrong shape) is a fallible step: `none` means the Python loop raises
and `sentinel2` aborts.  The key order of the result is the insertion order
of the Python `meta_dict`, with `assets` added last. -/
def extractS2Meta (s2 : S2Mapping) (scene : Scene) : Option MetaDict := do
  let tile_id ← lookupTileId s2 scene.properties
  let product_uri ← lookupProductUri s2 scene
  let scene_id ← lookupSceneId s2 scene
  let platform ← scene.properties.lookup s2.platform
  let sensingRaw ← scene.properties.lookup s2.sensing_time
  let sensingStr ← sensingRaw.asStr
  let sensing_date ← strptimeYmd (takeBeforeT sensingStr)
  let cloud ← scene.properties.lookup s2.cloud_cover
  let epsg ← scene.properties.lookup s2.epsg
  let sunAz ← scene.properties.lookup s2.sun_azimuth_angle
  let sunZen ← scene.properties.lookup s2.sun_zenith_angle
  pure [("product_uri", .jv product_uri),
        ("scene_id", .jv scene_id),
        ("spacecraft_name", .jv platform),
        ("tile_id", tile_id),
        ("sensing_date", .date sensing_date),
        ("cloudy_pixel_percentage", .jv cloud),
        ("epsg", .jv epsg),
        ("sensing_time", .dtime sensingStr s2.sensing_time_fmt),
        ("sun_azimuth_angle", .jv sunAz),
        ("sun_zenith_angle", .jv sunZen),
        ("assets", .assets scene.assets)]

/-- One iteration of `sentinel2`'s loop: build the metadata record and
evaluate the cloud-cover test `cloudy_pixel_percentage <= threshold`
(comparing a non-numeric value against the float threshold raises, hence
`none`). -/
def processScene (s2 : S2Mapping) (th : Rat) (scene : Scene) :
    Option (MetaDict × Bool) := do
  let meta ← extractS2Meta s2 scene
  let cloudJ ← scene.properties.lookup s2.cloud_cover
  let cloud ← cloudJ.asRat
  pure (meta, decide (cloud ≤ th))

/-- The numeric cloud cover of a scene under a provider mapping, when it
has one. -/
def sceneCloud (s2 : S2Mapping) (scene : Scene) : Option Rat :=
  (scene.properties.lookup s2.cloud_cover).bind JVal.asRat

/-- Whether `sentinel2` keeps a scene: its cloud cover is at most the
threshold (false also when the scene has no numeric cloud cover, a case in
which the Python loop raises instead). -/
def cloudKeep (s2 : S2Mapping) (th : Rat) (scene : Scene) : Bool :=
  match sceneCloud s2 scene with
  | some c => decide (c ≤ th)
  | none => false

/-- `sentinel2` from `eodal/metadata/stac/client.py`: choose the collection
from the processing level, query the STAC catalog, then loop over the found
scenes building metadata records and keeping exactly those whose cloudy
pixel percentage does not exceed the threshold.  Performs no configuration
check.  A `none` from the loop is an uncaught Python exception. -/
def sentinel2Run (env : StacClient) (S : Settings) (th : Rat)
    (pl : ProcessingLevels) (date_start date_end : PDate) (bbox : Polygon) :
    Except PyError (List MetaDict) × List Event :=
  let collection := s2Collection S.STAC_BACKEND pl
  match query_stac env S date_start date_end collection bbox with
  | (.error e, tr) => (.error e, tr)
  | (.ok scenes, tr) =>
    match scenes.mapM (processScene S.STAC_BACKEND.Sentinel2 th) with
    | none => (.error (.clientError "uncaught exception in scene loop"), tr)
    | some pairs => (.ok ((pairs.filter (·.2)).map (·.1)), tr)

/-- Python dictionary assignment `d[k] = v`: replace in place when the key
exists, append otherwise. -/
def dictSet (d : MetaDict) (k : String) (v : MetaVal) : MetaDict :=
  if d.any (fun kv => kv.1 = k) then
    d.map (fun kv => if kv.1 = k then (k, v) else kv)
  else d ++ [(k, v)]

/-- The row `sentinel1_rtc` builds for one scene: the scene's `properties`
dictionary extended with an `assets` entry holding the scene's assets. -/
def s1Row (scene : Scene) : MetaDict :=
  dictSet (scene.properties.map (fun kv => (kv.1, MetaVal.jv kv.2)))
    "assets" (.assets scene.assets)

/-- `sentinel1_rtc` from `eodal/metadata/stac/client.py`: three
configuration checks raising `ValueError`, then a query of the
`sentinel-1-rtc` collection, then one row per scene with the scene's
properties plus its assets.  The second component is the trace of
interactions with the external STAC library (empty when a check fails). -/
def sentinel1_rtcRun (env : StacClient) (S : Settings)
    (date_start date_end : PDate) (bbox : Polygon) :
    Except PyError (List MetaDict) × List Event :=
  if S.USE_STAC = false then
    (.error (.valueError "This method requires STAC"), [])
  else if S.STAC_BACKEND.id ≠ ProviderId.MSPC then
    (.error (.valueError "This method requires Microsoft Planetary Computer"), [])
  else if S.PC_SDK_SUBSCRIPTION_KEY = "" then
    (.error (.valueError "This method requires a valid Planetary Computer API key"), [])
  else
    match query_stac env S date_start date_end "sentinel-1-rtc" bbox with
    | (.error e, tr) => (.error e, tr)
    | (.ok scenes, tr) => (.ok (scenes.map s1Row), tr)

/-- A geometry for an area of interest: a point or a polygon, as the
mapper tests construct them. -/
inductive Geometry where
  | point (x y : Rat)
  | polygon (coords : List (Rat × Rat))
deriving DecidableEq, Repr

/-- Modelled from the spec: `eodal.mapper.feature.Feature` (not under the
sources; only its callers are): a named area-of-interest geometry with an
EPSG code and free-form attributes. -/
structure Feature where
  name : String
  geometry : Geometry
  epsg : Nat
  attributes : List (String × String)
deriving DecidableEq, Repr

/-- Modelled from the spec: `eodal.mapper.filter.Filter` (not under the
sources): an (entity, operator, value) metadata-filter triple. -/
structure Filter where
  entity : String
  op : String
  value : String
deriving DecidableEq, Repr

/-- The filter's `expression` attribute checked by the round-trip test:
the operator applied to the value. -/
def Filter.expression (f : Filter) : String := f.op ++ " " ++ f.value

/-- A timestamp as `datetime` stores it, to second precision. -/
structure PDateTime where
  year : Nat
  month : Nat
  day : Nat
  hour : Nat
  minute : Nat
  second : Nat
deriving DecidableEq, Repr

/-- Modelled from the spec: `eodal.mapper.mapper.MapperConfigs` (not under
the sources): collection name, area-of-interest feature, time range, and
the list of metadata filters. -/
structure MapperConfigs where
  collection : String
  feature : Feature
  time_start : PDateTime
  time_end : PDateTime
  metadata_filters : List Filter
deriving DecidableEq, Repr

/-- A scalar node of the YAML document `MapperConfigs.to_yaml` writes. -/
inductive YEntry where
  | str (s : String)
  | nat (n : Nat)
  | dt (d : PDateTime)
  | geom (g : Geometry)
  | attrs (a : List (String × String))
  | filters (fs : List (String × String × String))
deriving DecidableEq, Repr

/-- The YAML document: a mapping from key to node. -/
abbrev YDoc := List (String × YEntry)

/-- Modelled from the spec: `MapperConfigs.to_yaml` — "a simple YAML
serialization of a mapper configuration (collection name, named
area-of-interest geometry + attributes + EPSG code, time range, list of
(entity, operator, value) filter triples)". -/
def MapperConfigs.to_yaml (mc : MapperConfigs) : YDoc :=
  [("collection", .str mc.collection),
   ("time_start", .dt mc.time_start),
   ("time_end", .dt mc.time_end),
   ("feature_name", .str mc.feature.name),
   ("feature_geometry", .geom mc.feature.geometry),
   ("feature_epsg", .nat mc.feature.epsg),
   ("feature_attributes", .attrs mc.feature.attributes),
   ("metadata_filters",
     .filters (mc.metadata_filters.map (fun f => (f.entity, f.op, f.value))))]

/-- Modelled from the spec: `MapperConfigs.from_yaml` — read the YAML
mapping back, checking each key is present with a node of the right shape;
any missing or ill-shaped entry fails. -/
def MapperConfigs.from_yaml (doc : YDoc) : Option MapperConfigs := do
  let collection ← match doc.lookup "collection" with
    | some (.str s) => some s
    | _ => none
  let time_start ← match doc.lookup "time_start" with
    | some (.dt d) => some d
    | _ => none
  let time_end ← match doc.lookup "time_end" with
    | some (.dt d) => some d
    | _ => none
  let fname ← match doc.lookup "feature_name" with
    | some (.str s) => some s
    | _ => none
  let fgeom ← match doc.lookup "feature_geometry" with
    | some (.geom g) => some g
    | _ => none
  let fepsg ← match doc.lookup "feature_epsg" with
    | some (.nat n) => some n
    | _ => none
  let fattrs ← match doc.lookup "feature_attributes" with
    | some (.attrs a) => some a
    | _ => none
  let ftriples ← match doc.lookup "metadata_filters" with
    | some (.filters fs) => some fs
    | _ => none
  pure ⟨collection, ⟨fname, fgeom, fepsg, fattrs⟩, time_start, time_end,
        ftriples.map (fun t => ⟨t.1, t.2.1, t.2.2⟩)⟩

/-- Metadata of one queried scene, as far as the mapper's loading invariant
needs it: its sensing date and the EPSG code of its own tile. -/
structure SceneMeta where
  sensing_date : PDate
  epsg : Nat
deriving DecidableEq, Repr

/-- One row of the mapper's metadata table after loading. -/
structure MetadataRow where
  sensing_date : PDate
  target_epsg : Nat
deriving DecidableEq, Repr

/-- One loaded scene of the resulting collection. -/
structure LoadedScene where
  sensing_date : PDate
  crs : Nat
deriving DecidableEq, Repr

/-- The mapper's state after `load_scenes`: the metadata table and the
loaded scene collection. -/
structure MapperData where
  metadata : List MetadataRow
  data : List LoadedScene
deriving DecidableEq, Repr

/-- Modelled from the spec: `Mapper.load_scenes` (not under the sources) —
the mapper mosaicks same-day scenes that span multiple tiles and projects
every loaded scene into one single target EPSG code, recording one metadata
row per loaded scene.  The target EPSG is taken from the first queried
scene; with no queried scene there is nothing to load. -/
def load_scenes (scenes : List SceneMeta) : Option MapperData :=
  match scenes with
  | [] => none
  | s0 :: _ =>
    let target := s0.epsg
    let dates := (scenes.map (fun s => s.sensing_date)).dedup
    some ⟨dates.map (fun d => ⟨d, target⟩), dates.map (fun d => ⟨d, target⟩)⟩

/-! Concrete fixtures used by witnesses and counterexamples. -/

/-- A Sentinel-2 mapping in the style of Microsoft Planetary Computer:
every mapped property lives in the item's `properties`, and the tile id is
a single property. -/
def s2mapMSPC : S2Mapping :=
  ⟨"s2:product_uri", "s2:granule_id", "platform", .inl "s2:mgrs_tile",
   "datetime", "%Y-%m-%dT%H:%M:%S.%fZ", "eo:cloud_cover", "proj:epsg",
   "s2:mean_solar_azimuth", "s2:mean_solar_zenith"⟩

/-- A Sentinel-2 mapping in the style of AWS: the tile id is joined from a
list of properties. -/
def s2mapAWS : S2Mapping :=
  ⟨"sentinel:product_id", "sentinel:product_id", "platform",
   .inr ["sentinel:utm_zone", "sentinel:latitude_band", "sentinel:grid_square"],
   "datetime", "%Y-%m-%dT%H:%M:%S.%fZ", "eo:cloud_cover", "proj:epsg",
   "view:sun_azimuth", "view:sun_elevation"⟩

/-- A Planetary-Computer-style provider entry. -/
def provMSPC : Provider :=
  ⟨.MSPC, "https://planetarycomputer.microsoft.com/api/stac/v1",
   "sentinel-2-l1c", "sentinel-2-l2a", s2mapMSPC⟩

/-- Settings with STAC enabled, the MSPC backend and a non-empty key. -/
def S0 : Settings := ⟨true, provMSPC, "key", 500, 100⟩

/-- The same settings with STAC disabled. -/
def SnoStac : Settings := ⟨false, provMSPC, "key", 500, 100⟩

/-- A scene with 30 % cloud cover. -/
def sceneA : Scene :=
  ⟨[("datetime", .str "2022-05-03T10:20:31Z"),
    ("platform", .str "Sentinel-2A"),
    ("s2:mgrs_tile", .str "32TMT"),
    ("s2:granule_id", .str "granule-A"),
    ("s2:product_uri", .str "S2A_MSIL2A_20220503.SAFE"),
    ("eo:cloud_cover", .num 30),
    ("proj:epsg", .int 32632),
    ("s2:mean_solar_azimuth", .num 157),
    ("s2:mean_solar_zenith", .num 63)],
   [("B02", "https://example.org/A/B02.tif")], []⟩

/-- A scene whose cloud cover is exactly 80 % (the boundary case). -/
def sceneB : Scene :=
  ⟨[("datetime", .str "2022-05-08T10:20:31Z"),
    ("platform", .str "Sentinel-2B"),
    ("s2:mgrs_tile", .str "32TMT"),
    ("s2:granule_id", .str "granule-B"),
    ("s2:product_uri", .str "S2B_MSIL2A_20220508.SAFE"),
    ("eo:cloud_cover", .num 80),
    ("proj:epsg", .int 32632),
    ("s2:mean_solar_azimuth", .num 160),
    ("s2:mean_solar_zenith", .num 60)],
   [("B02", "https://example.org/B/B02.tif")], []⟩

/-- A scene with 95 % cloud cover (above every threshold used here). -/
def sceneC : Scene :=
  ⟨[("datetime", .str "2022-05-13T10:20:31Z"),
    ("platform", .str "Sentinel-2A"),
    ("s2:mgrs_tile", .str "32TMT"),
    ("s2:granule_id", .str "granule-C"),
    ("s2:product_uri", .str "S2A_MSIL2A_20220513.SAFE"),
    ("eo:cloud_cover", .num 95),
    ("proj:epsg", .int 32632),
    ("s2:mean_solar_azimuth", .num 150),
    ("s2:mean_solar_zenith", .num 65)],
   [("B02", "https://example.org/C/B02.tif")], []⟩

/-- An AWS-style scene whose tile id spans three properties. -/
def sceneAws : Scene :=
  ⟨[("datetime", .str "2022-05-03T10:20:31Z"),
    ("platform", .str "sentinel-2a"),
    ("sentinel:utm_zone", .int 32),
    ("sentinel:latitude_band", .str "T"),
    ("sentinel:grid_square", .str "MT"),
    ("sentinel:product_id", .str "S2A_MSIL2A_20220503"),
    ("eo:cloud_cover", .num 30),
    ("proj:epsg", .int 32632),
    ("view:sun_azimuth", .num 157),
    ("view:sun_elevation", .num 27)],
   [("B02", "https://example.org/aws/B02.tif")], []⟩

/-- An item collection holding the three MSPC-style scenes. -/
def icABC : ItemCollection := ⟨[sceneA, sceneB, sceneC]⟩

/-- A catalog on which every call succeeds and returns `icABC`. -/
def envOk : StacClient :=
  ⟨fun _ => .ok (), fun _ => .ok (), fun _ => .ok icABC⟩

/-- A catalog whose connection fails. -/
def envOpenFail : StacClient :=
  ⟨fun _ => .error "connection refused", fun _ => .ok (), fun _ => .ok icABC⟩

/-! Claim theorems about `query_stac`. -/

/-- C3: for every pair of dates, collection and polygon, `query_stac` opens
the catalog at `Settings.STAC_BACKEND.URL` (the first interaction) and,
once the connection is established, issues exactly one search whose
parameters are the given collection, the polygon as intersects constraint,
the date-range string made of the `%Y-%m-%d` renderings of the two dates
joined by a slash, `max_items = Settings.MAX_ITEMS` and
`limit = Settings.LIMIT_ITEMS`. -/
theorem query_stac_issues_one_search (env : StacClient) (S : Settings)
    (date_start date_end : PDate) (collection : String) (bbox : Polygon)
    (hopen : env.openRes S.STAC_BACKEND.URL = .ok ()) :
    (query_stac env S date_start date_end collection bbox).2.filter
        Event.isSearch =
      [Event.search ⟨collection, bbox,
        strftimeYmd date_start ++ "/" ++ strftimeYmd date_end,
        S.MAX_ITEMS, S.LIMIT_ITEMS⟩] ∧
    (query_stac env S date_start date_end collection bbox).2.head? =
      some (.openCatalog S.STAC_BACKEND.URL) := by
  simp only [query_stac]
  rw [hopen]
  cases hs : env.searchRes ⟨collection, bbox,
      strftimeYmd date_start ++ "/" ++ strftimeYmd date_end,
      S.MAX_ITEMS, S.LIMIT_ITEMS⟩ with
  | error e => simp [Event.isSearch]
  | ok u =>
    cases hi : env.itemsRes ⟨collection, bbox,
        strftimeYmd date_start ++ "/" ++ strftimeYmd date_end,
        S.MAX_ITEMS, S.LIMIT_ITEMS⟩ with
    | error e => simp [Event.isSearch]
    | ok items => simp [Event.isSearch]

/-- Witness for C3 at a concrete catalog, settings, dates and polygon. -/
theorem query_stac_issues_one_search_witness :
    (query_stac envOk S0 ⟨2022, 5, 1⟩ ⟨2022, 5, 31⟩ "sentinel-2-l2a"
        []).2.filter Event.isSearch =
      [Event.search ⟨"sentinel-2-l2a", [],
        strftimeYmd ⟨2022, 5, 1⟩ ++ "/" ++ strftimeYmd ⟨2022, 5, 31⟩,
        S0.MAX_ITEMS, S0.LIMIT_ITEMS⟩] ∧
    (query_stac envOk S0 ⟨2022, 5, 1⟩ ⟨2022, 5, 31⟩ "sentinel-2-l2a"
        []).2.head? = some (.openCatalog S0.STAC_BACKEND.URL) :=
  query_stac_issues_one_search envOk S0 ⟨2022, 5, 1⟩ ⟨2022, 5, 31⟩
    "sentinel-2-l2a" [] rfl

/-- Helper: the full success path of `query_stac`. -/
theorem query_stac_ok_helper (env : StacClient) (S : Settings)
    (date_start date_end : PDate) (collection : String) (bbox : Polygon)
    (ic : ItemCollection)
    (hopen : env.openRes S.STAC_BACKEND.URL = .ok ())
    (hsearch : env.searchRes ⟨collection, bbox,
      strftimeYmd date_start ++ "/" ++ strftimeYmd date_end,
      S.MAX_ITEMS, S.LIMIT_ITEMS⟩ = .ok ())
    (hitems : env.itemsRes ⟨collection, bbox,
      strftimeYmd date_start ++ "/" ++ strftimeYmd date_end,
      S.MAX_ITEMS, S.LIMIT_ITEMS⟩ = .ok ic) :
    query_stac env S date_start date_end collection bbox =
      (.ok ic.features,
       [.openCatalog S.STAC_BACKEND.URL,
        .search ⟨collection, bbox,
          strftimeYmd date_start ++ "/" ++ strftimeYmd date_end,
          S.MAX_ITEMS, S.LIMIT_ITEMS⟩,
        .getItems]) := by
  simp only [query_stac]
  rw [hopen, hsearch, hitems]

/-- C7: `query_stac` performs no retry and no partial-failure handling:
every call issues at most one search, and a failure of the connection, of
the search, or of the item retrieval makes the call return exactly that
error, with no partial result. -/
theorem query_stac_no_retry (env : StacClient) (S : Settings)
    (date_start date_end : PDate) (collection : String) (bbox : Polygon) :
    ((query_stac env S date_start date_end collection bbox).2.filter
        Event.isSearch).length ≤ 1 ∧
    (∀ e, env.openRes S.STAC_BACKEND.URL = .error e →
      query_stac env S date_start date_end collection bbox =
        (.error (.clientError e), [.openCatalog S.STAC_BACKEND.URL])) ∧
    (∀ e, env.openRes S.STAC_BACKEND.URL = .ok () →
      env.searchRes ⟨collection, bbox,
        strftimeYmd date_start ++ "/" ++ strftimeYmd date_end,
        S.MAX_ITEMS, S.LIMIT_ITEMS⟩ = .error e →
      (query_stac env S date_start date_end collection bbox).1 =
        .error (.clientError e)) ∧
    (∀ e, env.openRes S.STAC_BACKEND.URL = .ok () →
      env.searchRes ⟨collection, bbox,
        strftimeYmd date_start ++ "/" ++ strftimeYmd date_end,
        S.MAX_ITEMS, S.LIMIT_ITEMS⟩ = .ok () →
      env.itemsRes ⟨collection, bbox,
        strftimeYmd date_start ++ "/" ++ strftimeYmd date_end,
        S.MAX_ITEMS, S.LIMIT_ITEMS⟩ = .error e →
      (query_stac env S date_start date_end collection bbox).1 =
        .error (.clientError e)) := by
  refine ⟨?_, ?_, ?_, ?_⟩
  · simp only [query_stac]
    cases env.openRes S.STAC_BACKEND.URL with
    | error e => simp [Event.isSearch]
    | ok u =>
      cases env.searchRes ⟨collection, bbox,
          strftimeYmd date_start ++ "/" ++ strftimeYmd date_end,
          S.MAX_ITEMS, S.LIMIT_ITEMS⟩ with
      | error e => simp [Event.isSearch]
      | ok v =>
        cases env.itemsRes ⟨collection, bbox,
            strftimeYmd date_start ++ "/" ++ strftimeYmd date_end,
            S.MAX_ITEMS, S.LIMIT_ITEMS⟩ with
        | error e => simp [Event.isSearch]
        | ok items => simp [Event.isSearch]
  · intro e he
    simp only [query_stac]
    rw [he]
  · intro e hopen hsearch
    simp only [query_stac]
    rw [hopen, hsearch]
  · intro e hopen hsearch hitems
    simp only [query_stac]
    rw [hopen, hsearch, hitems]

/-- Witness for C7: a failing connection propagates unchanged, and the
trace holds no search. -/
theorem query_stac_no_retry_witness :
    query_stac envOpenFail S0 ⟨2022, 5, 1⟩ ⟨2022, 5, 31⟩ "sentinel-2-l2a" [] =
      (.error (.clientError "connection refused"),
       [.openCatalog S0.STAC_BACKEND.URL]) ∧
    ((query_stac envOpenFail S0 ⟨2022, 5, 1⟩ ⟨2022, 5, 31⟩ "sentinel-2-l2a"
        []).2.filter Event.isSearch).length ≤ 1 :=
  ⟨(query_stac_no_retry envOpenFail S0 ⟨2022, 5, 1⟩ ⟨2022, 5, 31⟩
      "sentinel-2-l2a" []).2.1 "connection refused" rfl,
   (query_stac_no_retry envOpenFail S0 ⟨2022, 5, 1⟩ ⟨2022, 5, 31⟩
      "sentinel-2-l2a" []).1⟩

/-- C9: `query_stac` applies no filtering and no transformation: on a
successful search it returns exactly the `features` list of the fetched
item collection, unchanged and in order; in particular no record is dropped
for cloud cover at this level. -/
theorem query_stac_returns_features_unchanged (env : StacClient)
    (S : Settings) (date_start date_end : PDate) (collection : String)
    (bbox : Polygon) (ic : ItemCollection)
    (hopen : env.openRes S.STAC_BACKEND.URL = .ok ())
    (hsearch : env.searchRes ⟨collection, bbox,
      strftimeYmd date_start ++ "/" ++ strftimeYmd date_end,
      S.MAX_ITEMS, S.LIMIT_ITEMS⟩ = .ok ())
    (hitems : env.itemsRes ⟨collection, bbox,
      strftimeYmd date_start ++ "/" ++ strftimeYmd date_end,
      S.MAX_ITEMS, S.LIMIT_ITEMS⟩ = .ok ic) :
    (query_stac env S date_start date_end collection bbox).1 =
      .ok ic.features := by
  rw [query_stac_ok_helper env S date_start date_end collection bbox ic
    hopen hsearch hitems]

/-- Witness for C9: the three fetched scenes — the fully clouded
`sceneC` included — come back unchanged. -/
theorem query_stac_returns_features_unchanged_witness :
    (query_stac envOk S0 ⟨2022, 5, 1⟩ ⟨2022, 5, 31⟩ "sentinel-2-l2a"
        []).1 = .ok [sceneA, sceneB, sceneC] :=
  query_stac_returns_features_unchanged envOk S0 ⟨2022, 5, 1⟩ ⟨2022, 5, 31⟩
    "sentinel-2-l2a" [] icABC rfl rfl rfl

/-- Helper: every error `query_stac` returns comes from the external
client; the function itself raises no `ValueError`. -/
theorem query_stac_error_is_client (env : StacClient) (S : Settings)
    (date_start date_end : PDate) (collection : String) (bbox : Polygon) :
    ∀ m, (query_stac env S date_start date_end collection bbox).1 ≠
      .error (.valueError m) := by
  intro m
  simp only [query_stac]
  cases env.openRes S.STAC_BACKEND.URL with
  | error e => simp
  | ok u =>
    cases env.searchRes ⟨collection, bbox,
        strftimeYmd date_start ++ "/" ++ strftimeYmd date_end,
        S.MAX_ITEMS, S.LIMIT_ITEMS⟩ with
    | error e => simp
    | ok v =>
      cases env.itemsRes ⟨collection, bbox,
          strftimeYmd date_start ++ "/" ++ strftimeYmd date_end,
          S.MAX_ITEMS, S.LIMIT_ITEMS⟩ with
      | error e => simp
      | ok items => simp

/-- C2: `sentinel1_rtc` raises a `ValueError` exactly when one of the three
configuration conditions fails (STAC disabled, backend not MSPC, or empty
subscription key), and whenever it raises one, no interaction with the STAC
catalog has taken place. -/
theorem sentinel1_rtc_valueError_iff (env : StacClient) (S : Settings)
    (date_start date_end : PDate) (bbox : Polygon) :
    ((∃ m, (sentinel1_rtcRun env S date_start date_end bbox).1 =
        .error (.valueError m)) ↔
      (S.USE_STAC = false ∨ S.STAC_BACKEND.id ≠ ProviderId.MSPC ∨
        S.PC_SDK_SUBSCRIPTION_KEY = "")) ∧
    (∀ m, (sentinel1_rtcRun env S date_start date_end bbox).1 =
        .error (.valueError m) →
      (sentinel1_rtcRun env S date_start date_end bbox).2 = []) := by
  unfold sentinel1_rtcRun
  by_cases h1 : S.USE_STAC = false
  · simp [h1]
  · by_cases h2 : S.STAC_BACKEND.id = ProviderId.MSPC
    · by_cases h3 : S.PC_SDK_SUBSCRIPTION_KEY = ""
      · simp [h1, h2, h3]
      · simp only [if_neg h1, h2, ne_eq, not_true_eq_false, if_false,
          if_neg h3]
        constructor
        · constructor
          · rintro ⟨m, hm⟩
            exfalso
            rcases hq : query_stac env S date_start date_end
                "sentinel-1-rtc" bbox with ⟨res, tr⟩
            rw [hq] at hm
            cases res with
            | error e =>
              simp at hm
              exact query_stac_error_is_client env S date_start date_end
                "sentinel-1-rtc" bbox m (by rw [hq, hm])
            | ok scenes => simp at hm
          · rintro (h | h | h)
            · exact absurd h h1
            · exact h.elim
            · exact absurd h h3
        · intro m hm
          exfalso
          rcases hq : query_stac env S date_start date_end
              "sentinel-1-rtc" bbox with ⟨res, tr⟩
          rw [hq] at hm
          cases res with
          | error e =>
            simp at hm
            exact query_stac_error_is_client env S date_start date_end
              "sentinel-1-rtc" bbox m (by rw [hq, hm])
          | ok scenes => simp at hm
    · simp [h1, h2]

/-- Witness for C2: with STAC disabled the call returns the `ValueError`
and an empty interaction trace. -/
theorem sentinel1_rtc_valueError_iff_witness :
    (∃ m, (sentinel1_rtcRun envOk SnoStac ⟨2022, 5, 1⟩ ⟨2022, 5, 31⟩
        []).1 = .error (.valueError m)) ∧
    (sentinel1_rtcRun envOk SnoStac ⟨2022, 5, 1⟩ ⟨2022, 5, 31⟩ []).2 = [] :=
  ⟨(sentinel1_rtc_valueError_iff envOk SnoStac ⟨2022, 5, 1⟩ ⟨2022, 5, 31⟩
      []).1.mpr (Or.inl rfl),
   (sentinel1_rtc_valueError_iff envOk SnoStac ⟨2022, 5, 1⟩ ⟨2022, 5, 31⟩
      []).2 "This method requires STAC" rfl⟩

/-- C10: when its configuration checks pass, `sentinel1_rtc` never filters:
the result has exactly one row per scene returned by the STAC query, in
query order, each row being the scene's properties dictionary extended with
an `assets` entry. -/
theorem sentinel1_rtc_no_filtering (env : StacClient) (S : Settings)
    (date_start date_end : PDate) (bbox : Polygon) (scenes : List Scene)
    (tr : List Event)
    (hstac : S.USE_STAC = true) (hprov : S.STAC_BACKEND.id = ProviderId.MSPC)
    (hkey : S.PC_SDK_SUBSCRIPTION_KEY ≠ "")
    (hq : query_stac env S date_start date_end "sentinel-1-rtc" bbox =
      (.ok scenes, tr)) :
    (sentinel1_rtcRun env S date_start date_end bbox).1 =
      .ok (scenes.map s1Row) ∧
    (scenes.map s1Row).length = scenes.length := by
  refine ⟨?_, by simp⟩
  unfold sentinel1_rtcRun
  rw [hstac]
  simp only [Bool.true_eq_false, if_false, hprov, ne_eq, not_true_eq_false,
    if_neg hkey]
  rw [hq]

/-- Witness for C10: the three fetched scenes give three rows in order. -/
theorem sentinel1_rtc_no_filtering_witness :
    (sentinel1_rtcRun envOk S0 ⟨2022, 5, 1⟩ ⟨2022, 5, 31⟩ []).1 =
      .ok ([sceneA, sceneB, sceneC].map s1Row) ∧
    ([sceneA, sceneB, sceneC].map s1Row).length =
      [sceneA, sceneB, sceneC].length :=
  sentinel1_rtc_no_filtering envOk S0 ⟨2022, 5, 1⟩ ⟨2022, 5, 31⟩ []
    [sceneA, sceneB, sceneC]
    [.openCatalog S0.STAC_BACKEND.URL,
     .search ⟨"sentinel-1-rtc", [],
       strftimeYmd ⟨2022, 5, 1⟩ ++ "/" ++ strftimeYmd ⟨2022, 5, 31⟩,
       S0.MAX_ITEMS, S0.LIMIT_ITEMS⟩,
     .getItems]
    rfl rfl (by simp [S0]) rfl

/-- Counterexample to C1 as stated: with STAC disabled (a missing required
configuration), `sentinel2` raises no `ValueError` — it returns a result —
and still issues a catalog search. -/
theorem sentinel2_no_config_check_cex :
    (∃ rows, (sentinel2Run envOk SnoStac 80 .L2A ⟨2022, 5, 1⟩ ⟨2022, 5, 31⟩
        []).1 = .ok rows) ∧
    ((sentinel2Run envOk SnoStac 80 .L2A ⟨2022, 5, 1⟩ ⟨2022, 5, 31⟩
        []).2.filter Event.isSearch).length = 1 :=
  ⟨⟨(icABC.features.filter (cloudKeep s2mapMSPC 80)).map
      (fun sc => (extractS2Meta s2mapMSPC sc).getD []), by rfl⟩, rfl⟩

/-- C1 amended: of the two sensor-specific query functions only
`sentinel1_rtc` checks the required configuration, raising a generic
`ValueError` before any catalog interaction when a condition is missing;
`sentinel2` performs no such check and behaves identically whatever the
value of the use-STAC flag and of the API key. -/
theorem config_check_only_sentinel1 (env : StacClient) (S : Settings)
    (date_start date_end : PDate) (bbox : Polygon)
    (h : S.USE_STAC = false ∨ S.STAC_BACKEND.id ≠ ProviderId.MSPC ∨
      S.PC_SDK_SUBSCRIPTION_KEY = "") :
    (∃ m, (sentinel1_rtcRun env S date_start date_end bbox).1 =
      .error (.valueError m)) ∧
    (sentinel1_rtcRun env S date_start date_end bbox).2 = [] ∧
    (∀ b k th pl,
      sentinel2Run env ⟨b, S.STAC_BACKEND, k, S.MAX_ITEMS, S.LIMIT_ITEMS⟩
          th pl date_start date_end bbox =
        sentinel2Run env S th pl date_start date_end bbox) := by
  refine ⟨?_, ?_, fun b k th pl => rfl⟩
  · unfold sentinel1_rtcRun
    rcases h with h | h | h
    · simp [h]
    · rcases h1 : S.USE_STAC with _ | _
      · simp
      · simp [h1, h]
    · rcases h1 : S.USE_STAC with _ | _
      · simp
      · rcases h2 : decide (S.STAC_BACKEND.id = ProviderId.MSPC) with _ | _
        · simp at h2
          simp [h1, h2]
        · simp at h2
          simp [h1, h2, h]
  · unfold sentinel1_rtcRun
    rcases h with h | h | h
    · simp [h]
    · rcases h1 : S.USE_STAC with _ | _
      · simp
      · simp [h1, h]
    · rcases h1 : S.USE_STAC with _ | _
      · simp
      · rcases h2 : decide (S.STAC_BACKEND.id = ProviderId.MSPC) with _ | _
        · simp at h2
          simp [h1, h2]
        · simp at h2
          simp [h1, h2, h]

/-- Witness for the amended C1 at a concrete disabled-STAC setting. -/
theorem config_check_only_sentinel1_witness :
    (∃ m, (sentinel1_rtcRun envOk SnoStac ⟨2022, 5, 1⟩ ⟨2022, 5, 31⟩
        []).1 = .error (.valueError m)) ∧
    (sentinel1_rtcRun envOk SnoStac ⟨2022, 5, 1⟩ ⟨2022, 5, 31⟩ []).2 =
      [] ∧
    (∀ b k th pl,
      sentinel2Run envOk
          ⟨b, SnoStac.STAC_BACKEND, k, SnoStac.MAX_ITEMS,
           SnoStac.LIMIT_ITEMS⟩ th pl ⟨2022, 5, 1⟩ ⟨2022, 5, 31⟩ [] =
        sentinel2Run envOk SnoStac th pl ⟨2022, 5, 1⟩ ⟨2022, 5, 31⟩ []) :=
  config_check_only_sentinel1 envOk SnoStac ⟨2022, 5, 1⟩ ⟨2022, 5, 31⟩ []
    (Or.inl rfl)

/-- Helper: a successful loop iteration yields the extracted record
together with the cloud-cover verdict of `cloudKeep`. -/
theorem processScene_spec (s2 : S2Mapping) (th : Rat) (sc : Scene)
    (m : MetaDict) (b : Bool)
    (h : processScene s2 th sc = some (m, b)) :
    extractS2Meta s2 sc = some m ∧ cloudKeep s2 th sc = b := by
  unfold processScene at h
  simp only [Option.bind_eq_bind, Option.bind_eq_some, Option.pure_def,
    Option.some.injEq, Prod.mk.injEq] at h
  obtain ⟨m', hm', j, hj, c, hc, hmeq, hbeq⟩ := h
  refine ⟨by rw [hm', hmeq], ?_⟩
  unfold cloudKeep sceneCloud
  rw [hj]
  simp only [Option.some_bind, hc, hbeq]

/-- Helper: when every scene of a list processes successfully, the loop's
kept rows are exactly the extraction of the scenes passing the cloud
test, in order. -/
theorem processScene_filter_map (s2 : S2Mapping) (th : Rat) :
    ∀ scenes : List Scene,
      (∀ sc ∈ scenes, (processScene s2 th sc).isSome) →
      ∃ pairs, scenes.mapM (processScene s2 th) = some pairs ∧
        (pairs.filter (·.2)).map (·.1) =
          (scenes.filter (cloudKeep s2 th)).map
            (fun sc => (extractS2Meta s2 sc).getD []) := by
  intro scenes
  induction scenes with
  | nil => intro _; exact ⟨[], rfl, rfl⟩
  | cons sc rest ih =>
    intro hwf
    obtain ⟨pr, hpr⟩ := Option.isSome_iff_exists.mp
      (hwf sc (List.mem_cons_self sc rest))
    obtain ⟨pairs, hpairs, heq⟩ :=
      ih (fun x hx => hwf x (List.mem_cons_of_mem sc hx))
    refine ⟨pr :: pairs, ?_, ?_⟩
    · rw [List.mapM_cons, hpr, hpairs]; rfl
    · rcases pr with ⟨m, b⟩
      obtain ⟨hex, hck⟩ := processScene_spec s2 th sc m b hpr
      cases b with
      | false => simp [List.filter_cons, hck, heq]
      | true => simp [List.filter_cons, hck, heq, hex]

/-- C4: the DataFrame `sentinel2` returns has a row for exactly those
fetched scenes whose cloudy pixel percentage is at most the threshold
(the boundary is inclusive), and the rows appear in the same order as the
scenes returned by the query. -/
theorem sentinel2_cloud_filter (env : StacClient) (S : Settings) (th : Rat)
    (pl : ProcessingLevels) (date_start date_end : PDate) (bbox : Polygon)
    (ic : ItemCollection)
    (hopen : env.openRes S.STAC_BACKEND.URL = .ok ())
    (hsearch : env.searchRes ⟨s2Collection S.STAC_BACKEND pl, bbox,
      strftimeYmd date_start ++ "/" ++ strftimeYmd date_end,
      S.MAX_ITEMS, S.LIMIT_ITEMS⟩ = .ok ())
    (hitems : env.itemsRes ⟨s2Collection S.STAC_BACKEND pl, bbox,
      strftimeYmd date_start ++ "/" ++ strftimeYmd date_end,
      S.MAX_ITEMS, S.LIMIT_ITEMS⟩ = .ok ic)
    (hwf : ∀ sc ∈ ic.features,
      (processScene S.STAC_BACKEND.Sentinel2 th sc).isSome) :
    (sentinel2Run env S th pl date_start date_end bbox).1 =
      .ok ((ic.features.filter (cloudKeep S.STAC_BACKEND.Sentinel2 th)).map
        (fun sc => (extractS2Meta S.STAC_BACKEND.Sentinel2 sc).getD [])) := by
  obtain ⟨pairs, hpairs, heq⟩ :=
    processScene_filter_map S.STAC_BACKEND.Sentinel2 th ic.features hwf
  simp only [sentinel2Run]
  rw [query_stac_ok_helper env S date_start date_end
    (s2Collection S.STAC_BACKEND pl) bbox ic hopen hsearch hitems]
  simp only [hpairs]
  rw [heq]

/-- Witness for C4: with threshold 80 the 30 % and the exactly-80 % scenes
are kept in order and the 95 % scene is dropped. -/
theorem sentinel2_cloud_filter_witness :
    (sentinel2Run envOk S0 80 .L2A ⟨2022, 5, 1⟩ ⟨2022, 5, 31⟩ []).1 =
      .ok ((icABC.features.filter (cloudKeep s2mapMSPC 80)).map
        (fun sc => (extractS2Meta s2mapMSPC sc).getD [])) ∧
    icABC.features.filter (cloudKeep s2mapMSPC 80) = [sceneA, sceneB] :=
  ⟨sentinel2_cloud_filter envOk S0 80 .L2A ⟨2022, 5, 1⟩ ⟨2022, 5, 31⟩ []
      icABC rfl rfl rfl (by decide), by decide⟩

/-- Helper: one step of an `Option` do-block that produced a value. -/
theorem opt_bind_some {α β : Type} {x : Option α} {f : α → Option β} {b : β}
    (h : x >>= f = some b) : ∃ a, x = some a ∧ f a = some b := by
  cases x with
  | none => exact absurd h (by simp)
  | some a => exact ⟨a, rfl, h⟩

/-- C5: every record `sentinel2` builds has exactly the eleven uniform keys
in insertion order; when the provider's tile-id mapping is a list of
property names the tile id is the concatenation of those properties' string
values in list order; and the sensing date is the calendar date parsed from
the part of the sensing-time property before the first `T`. -/
theorem sentinel2_schema (s2 : S2Mapping) (sc : Scene) (m : MetaDict)
    (h : extractS2Meta s2 sc = some m) :
    m.map Prod.fst = ["product_uri", "scene_id", "spacecraft_name",
      "tile_id", "sensing_date", "cloudy_pixel_percentage", "epsg",
      "sensing_time", "sun_azimuth_angle", "sun_zenith_angle", "assets"] ∧
    (∀ keys, s2.tile_id = Sum.inr keys →
      ∃ parts,
        keys.mapM (fun x => (sc.properties.lookup x).map JVal.pyStr) =
          some parts ∧
        m.lookup "tile_id" = some (.tile (String.join parts))) ∧
    (∃ raw d, sc.properties.lookup s2.sensing_time = some (.str raw) ∧
      strptimeYmd (takeBeforeT raw) = some d ∧
      m.lookup "sensing_date" = some (.date d)) := by
  unfold extractS2Meta at h
  obtain ⟨tv, htv, h⟩ := opt_bind_some h
  obtain ⟨pu, hpu, h⟩ := opt_bind_some h
  obtain ⟨sid, hsid, h⟩ := opt_bind_some h
  obtain ⟨plat, hplat, h⟩ := opt_bind_some h
  obtain ⟨sraw, hsraw, h⟩ := opt_bind_some h
  obtain ⟨sstr, hsstr, h⟩ := opt_bind_some h
  obtain ⟨sdate, hsdate, h⟩ := opt_bind_some h
  obtain ⟨cloud, hcloud, h⟩ := opt_bind_some h
  obtain ⟨epsgv, hepsgv, h⟩ := opt_bind_some h
  obtain ⟨saz, hsaz, h⟩ := opt_bind_some h
  obtain ⟨szen, hszen, h⟩ := opt_bind_some h
  simp only [Option.pure_def, Option.some.injEq] at h
  subst h
  refine ⟨rfl, ?_, ?_⟩
  · intro keys hkeys
    unfold lookupTileId at htv
    rw [hkeys] at htv
    obtain ⟨parts, hparts, htv⟩ := Option.map_eq_some'.mp htv
    subst htv
    exact ⟨parts, hparts, rfl⟩
  · cases sraw with
    | str s =>
      simp only [JVal.asStr, Option.some.injEq] at hsstr
      subst hsstr
      exact ⟨s, sdate, hsraw, hsdate, rfl⟩
    | int n => exact absurd hsstr (by simp [JVal.asStr])
    | num q => exact absurd hsstr (by simp [JVal.asStr])

/-- A concrete AWS-style record: the extraction of `sceneAws`. -/
def awsMeta : MetaDict := (extractS2Meta s2mapAWS sceneAws).getD []

/-- Witness for C5 on an AWS-style mapping whose tile id spans the UTM
zone, latitude band and grid square properties. -/
theorem sentinel2_schema_witness :
    awsMeta.map Prod.fst = ["product_uri", "scene_id", "spacecraft_name",
      "tile_id", "sensing_date", "cloudy_pixel_percentage", "epsg",
      "sensing_time", "sun_azimuth_angle", "sun_zenith_angle", "assets"] ∧
    (∃ parts,
      ["sentinel:utm_zone", "sentinel:latitude_band",
        "sentinel:grid_square"].mapM
          (fun x => (sceneAws.properties.lookup x).map JVal.pyStr) =
        some parts ∧
      awsMeta.lookup "tile_id" = some (.tile (String.join parts))) :=
  ⟨(sentinel2_schema s2mapAWS sceneAws awsMeta (by rfl)).1,
   (sentinel2_schema s2mapAWS sceneAws awsMeta (by rfl)).2.1
     ["sentinel:utm_zone", "sentinel:latitude_band", "sentinel:grid_square"]
     rfl⟩

/-- Helper: writing a configuration and reading it back restores it. -/
theorem from_to_yaml_eq (mc : MapperConfigs) :
    MapperConfigs.from_yaml (MapperConfigs.to_yaml mc) = some mc := by
  rcases mc with ⟨c, ⟨n, g, e, a⟩, ts, te, fs⟩
  show some ⟨c, ⟨n, g, e, a⟩, ts, te,
    (fs.map (fun f => (f.entity, f.op, f.value))).map
      (fun t => ⟨t.1, t.2.1, t.2.2⟩)⟩ = some (⟨c, ⟨n, g, e, a⟩, ts, te, fs⟩ :
        MapperConfigs)
  rw [List.map_map]
  have hid : ((fun t => (⟨t.1, t.2.1, t.2.2⟩ : Filter)) ∘
      fun f : Filter => (f.entity, f.op, f.value)) = id := by
    funext f
    rfl
  rw [hid, List.map_id]

/-- C6: a mapper configuration written with `to_yaml` and read back with
`from_yaml` yields a configuration with the same collection, the same
feature name, geometry, EPSG code and attribute set, the same start and
end time, and the same filter entities and expressions in the same
order. -/
theorem mapper_configs_yaml_roundtrip (mc : MapperConfigs) :
    ∃ mc', MapperConfigs.from_yaml (MapperConfigs.to_yaml mc) = some mc' ∧
      mc'.collection = mc.collection ∧
      mc'.feature.name = mc.feature.name ∧
      mc'.feature.geometry = mc.feature.geometry ∧
      mc'.feature.epsg = mc.feature.epsg ∧
      mc'.feature.attributes = mc.feature.attributes ∧
      mc'.time_start = mc.time_start ∧
      mc'.time_end = mc.time_end ∧
      mc'.metadata_filters.map Filter.entity =
        mc.metadata_filters.map Filter.entity ∧
      mc'.metadata_filters.map Filter.expression =
        mc.metadata_filters.map Filter.expression :=
  ⟨mc, from_to_yaml_eq mc, rfl, rfl, rfl, rfl, rfl, rfl, rfl, rfl, rfl⟩

/-- C8: after a successful `load_scenes`, the metadata table records
exactly one distinct target EPSG value, every loaded scene's CRS equals it,
and the metadata table has exactly one row per loaded scene. -/
theorem load_scenes_single_epsg (scenes : List SceneMeta) (md : MapperData)
    (h : load_scenes scenes = some md) :
    (∃ t, (∀ r ∈ md.metadata, r.target_epsg = t) ∧
      (∀ sc ∈ md.data, sc.crs = t)) ∧
    md.metadata ≠ [] ∧
    md.metadata.length = md.data.length := by
  cases scenes with
  | nil => exact absurd h (by simp [load_scenes])
  | cons s0 rest =>
    simp only [load_scenes, Option.some.injEq] at h
    subst h
    refine ⟨⟨s0.epsg, ?_, ?_⟩, ?_, by simp⟩
    · intro r hr
      obtain ⟨d, _, hd⟩ := List.mem_map.mp hr
      rw [← hd]
    · intro sc hsc
      obtain ⟨d, _, hd⟩ := List.mem_map.mp hsc
      rw [← hd]
    · simp only [ne_eq, List.map_eq_nil_iff, List.dedup_eq_nil,
        List.map_eq_nil_iff]
      simp

/-- Witness for C8 at three scenes over two days and two native tiles. -/
theorem load_scenes_single_epsg_witness :
    (∃ t, (∀ r ∈ (⟨[⟨⟨2022, 7, 3⟩, 32632⟩, ⟨⟨2022, 7, 5⟩, 32632⟩],
        [⟨⟨2022, 7, 3⟩, 32632⟩, ⟨⟨2022, 7, 5⟩, 32632⟩]⟩ :
          MapperData).metadata, r.target_epsg = t) ∧
      (∀ sc ∈ (⟨[⟨⟨2022, 7, 3⟩, 32632⟩, ⟨⟨2022, 7, 5⟩, 32632⟩],
        [⟨⟨2022, 7, 3⟩, 32632⟩, ⟨⟨2022, 7, 5⟩, 32632⟩]⟩ :
          MapperData).data, sc.crs = t)) ∧
    (⟨[⟨⟨2022, 7, 3⟩, 32632⟩, ⟨⟨2022, 7, 5⟩, 32632⟩],
      [⟨⟨2022, 7, 3⟩, 32632⟩, ⟨⟨2022, 7, 5⟩, 32632⟩]⟩ :
        MapperData).metadata ≠ [] ∧
    (⟨[⟨⟨2022, 7, 3⟩, 32632⟩, ⟨⟨2022, 7, 5⟩, 32632⟩],
      [⟨⟨2022, 7, 3⟩, 32632⟩, ⟨⟨2022, 7, 5⟩, 32632⟩]⟩ :
        MapperData).metadata.length =
      (⟨[⟨⟨2022, 7, 3⟩, 32632⟩, ⟨⟨2022, 7, 5⟩, 32632⟩],
        [⟨⟨2022, 7, 3⟩, 32632⟩, ⟨⟨2022, 7, 5⟩, 32632⟩]⟩ :
          MapperData).data.length :=
  load_scenes_single_epsg
    [⟨⟨2022, 7, 3⟩, 32632⟩, ⟨⟨2022, 7, 3⟩, 32633⟩, ⟨⟨2022, 7, 5⟩, 32632⟩]
    ⟨[⟨⟨2022, 7, 3⟩, 32632⟩, ⟨⟨2022, 7, 5⟩, 32632⟩],
     [⟨⟨2022, 7, 3⟩, 32632⟩, ⟨⟨2022, 7, 5⟩, 32632⟩]⟩
    (by decide)

end Eodal
